import Mathlib

/-!
Verification development for the AI-Writer repository.

This file gives a shallow embedding of the repository's glue logic:
  * `src/lib/ai_seo_tools/dataforseo_analyzer.py` — the `DataForSEOAnalyzer`
    API client, its `analyze_on_page` submit/poll/fetch sequence and the
    response-to-row display flattening;
  * `src/api/index.py` — the bootstrap HTTP handler;
  * `src/lib/utils/document_rag.py` — extension-dispatched document loading
    and folder summarization;
  * `src/lib/utils/dataforseo_tools.py` — the audit prompt construction.

Python values appearing in API responses are modelled by a `Json` type;
Python exceptions (`KeyError`, `IndexError`, `TypeError`, `AttributeError`)
are modelled by `Except PyError`; a Python function that can return `None`
returns an `Option`.
-/

/-- A parsed JSON value, as returned by `response.json()` in the source.
Object keys are strings, as in any JSON document. -/
inductive Json where
  | null : Json
  | jbool (b : Bool) : Json
  | jnum (n : Int) : Json
  | jstr (s : String) : Json
  | jarr (xs : List Json) : Json
  | jobj (kvs : List (String × Json)) : Json
deriving Repr

/-- The Python exceptions that the modelled code can raise. -/
inductive PyError where
  | keyError
  | indexError
  | typeError
  | attributeError
  | ioError
deriving DecidableEq, Repr

/-- Python truthiness of a JSON value: `None`, `False`, `0`, `""`, `[]` and
`{}` are falsy, everything else is truthy. `not x` in the source is
`Json.falsy x` here. -/
def Json.falsy : Json → Bool
  | .null => true
  | .jbool b => !b
  | .jnum n => n == 0
  | .jstr s => s.isEmpty
  | .jarr xs => xs.isEmpty
  | .jobj kvs => kvs.isEmpty

/-- Key lookup in an object; `none` when the key is absent or the value is
not an object. Python `dict` keeps one value per key; association-list
`find?` returns the binding for the key. -/
def Json.lookup (j : Json) (k : String) : Option Json :=
  match j with
  | .jobj kvs => (kvs.find? (fun p => p.1 == k)).map (fun p => p.2)
  | _ => none

/-- Python `x == s` for a string literal `s`: string equality when `x` is a
string, `False` for every other type (Python equality between values of
different types is `False`, it does not raise). -/
def Json.pyEqStr (j : Json) (s : String) : Bool :=
  match j with
  | .jstr t => t == s
  | _ => false

/-- Python `k in x` for a string `k`: key membership for a dict, element
membership for a list, substring test for a string, `TypeError` otherwise. -/
def Json.containsStr (j : Json) (k : String) : Except PyError Bool :=
  match j with
  | .jobj kvs => .ok (kvs.any (fun p => p.1 == k))
  | .jarr xs => .ok (xs.any (fun x => x.pyEqStr k))
  | .jstr s => .ok (if k.isEmpty then true else (s.splitOn k).length != 1)
  | _ => .error .typeError

/-- Python subscript `x[k]` for a string key `k`: dict lookup raising
`KeyError` when absent, `TypeError` on every other type. -/
def Json.getKey (j : Json) (k : String) : Except PyError Json :=
  match j with
  | .jobj kvs =>
    match (kvs.find? (fun p => p.1 == k)) with
    | some p => .ok p.2
    | none => .error .keyError
  | _ => .error .typeError

/-- Python subscript `x[i]` for a non-negative integer `i`: list indexing
raising `IndexError` out of bounds, string indexing yielding a one-character
string, `KeyError` for a dict (JSON objects carry only string keys, so an
integer key is never present), `TypeError` otherwise. -/
def Json.getIdx (j : Json) (i : Nat) : Except PyError Json :=
  match j with
  | .jarr xs =>
    match xs.get? i with
    | some v => .ok v
    | none => .error .indexError
  | .jstr s =>
    match s.data.get? i with
    | some c => .ok (.jstr (String.mk [c]))
    | none => .error .indexError
  | .jobj _ => .error .keyError
  | _ => .error .typeError

/-- Python `x.get(k, d)`: defaulted dict lookup; `AttributeError` when `x`
is not a dict. -/
def Json.pyGetD (j : Json) (k : String) (d : Json) : Except PyError Json :=
  match j with
  | .jobj _ => .ok ((j.lookup k).getD d)
  | _ => .error .attributeError

/-- Python `x.get(k)`; the default is `None`. -/
def Json.pyGetN (j : Json) (k : String) : Except PyError Json :=
  j.pyGetD k .null

/-- Python `for v in x`: a list yields its elements, a dict yields its keys,
a string yields its one-character substrings, everything else raises
`TypeError`. -/
def Json.iter (j : Json) : Except PyError (List Json) :=
  match j with
  | .jarr xs => .ok xs
  | .jobj kvs => .ok (kvs.map (fun p => Json.jstr p.1))
  | .jstr s => .ok (s.data.map (fun c => Json.jstr (String.mk [c])))
  | _ => .error .typeError

/-! ### The `analyze_on_page` submit/poll/fetch sequence

`DataForSEOAnalyzer.analyze_on_page` makes one POST to `on_page/task_post`,
then up to `max_retries` times sleeps ten seconds and GETs
`on_page/tasks/{task_id}`; when a poll reports status `"ready"` it GETs
`on_page/pages/{task_id}` and returns that response. The remote server is
stateful — the same status endpoint can answer differently on successive
polls — so the embedding indexes the status response by the poll attempt
number. `none` models a `make_request` that returned `None` (a failed HTTP
call). -/

/-- The remote API as seen by one `analyze_on_page` call: the task-post
response, the status response of each poll attempt, and the results
response. -/
structure OnPageApi where
  taskPost : Option Json
  status : Nat → Option Json
  results : Option Json

/-- `max_retries = 5` in `analyze_on_page`. -/
def max_retries : Nat := 5

/-- `time.sleep(10)` — ten seconds between status checks. -/
def sleepSeconds : Nat := 10

/-- Observable outcome of `analyze_on_page`: the returned value (or the
exception raised), the number of `time.sleep(10)` calls performed, the
number of status queries issued, and the number of times the timeout
message `st.error("Timed out waiting for on-page analysis to complete.")`
was displayed. -/
structure PollOutcome where
  result : Except PyError (Option Json)
  sleeps : Nat
  queries : Nat
  timeouts : Nat
deriving Repr

/-- Bookkeeping for one loop iteration: it performed exactly one sleep
followed by exactly one status query. -/
def PollOutcome.afterIteration (o : PollOutcome) : PollOutcome :=
  { o with sleeps := o.sleeps + 1, queries := o.queries + 1 }

/-- `status_response["tasks"][0]["status"]` — the status-field extraction of
the polling loop, with its Python exception behaviour. -/
def statusField (resp : Json) : Except PyError Json := do
  let tasks ← resp.getKey "tasks"
  let first ← tasks.getIdx 0
  first.getKey "status"

/-- The `while retries < max_retries` polling loop of `analyze_on_page`.
`retries` is the Python counter (the attempt index of the next status
query); `fuel` is `max_retries - retries`, which the `while` condition makes
the number of iterations still permitted. Each iteration sleeps, queries the
status, treats a `None` / falsy / `"tasks"`-less response as one consumed
retry, extracts `tasks[0]["status"]`, and on `"ready"` fetches and returns
the results; leaving the loop displays the timeout error once and returns
`None`. -/
def onPagePoll (api : OnPageApi) : Nat → Nat → PollOutcome
  | _retries, 0 =>
    { result := .ok none, sleeps := 0, queries := 0, timeouts := 1 }
  | retries, fuel + 1 =>
    let rest : PollOutcome :=
      match api.status retries with
      | none => onPagePoll api (retries + 1) fuel
      | some resp =>
        if resp.falsy then onPagePoll api (retries + 1) fuel
        else
          match resp.containsStr "tasks" with
          | .error e => { result := .error e, sleeps := 0, queries := 0, timeouts := 0 }
          | .ok false => onPagePoll api (retries + 1) fuel
          | .ok true =>
            match statusField resp with
            | .error e => { result := .error e, sleeps := 0, queries := 0, timeouts := 0 }
            | .ok status =>
              if status.pyEqStr "ready" then
                { result := .ok api.results, sleeps := 0, queries := 0, timeouts := 0 }
              else onPagePoll api (retries + 1) fuel
    rest.afterIteration

/-- `DataForSEOAnalyzer.analyze_on_page`: submit the crawl task (returning
`None` when the task-post response is `None`, falsy or lacks `"tasks"`),
extract `task_response["tasks"][0]["id"]` (which can raise), then run the
polling loop starting at `retries = 0`. -/
def analyze_on_page (api : OnPageApi) : PollOutcome :=
  match api.taskPost with
  | none => { result := .ok none, sleeps := 0, queries := 0, timeouts := 0 }
  | some tr =>
    if tr.falsy then { result := .ok none, sleeps := 0, queries := 0, timeouts := 0 }
    else
      match tr.containsStr "tasks" with
      | .error e => { result := .error e, sleeps := 0, queries := 0, timeouts := 0 }
      | .ok false => { result := .ok none, sleeps := 0, queries := 0, timeouts := 0 }
      | .ok true =>
        match (do
            let tasks ← tr.getKey "tasks"
            let first ← tasks.getIdx 0
            first.getKey "id" : Except PyError Json) with
        | .error e => { result := .error e, sleeps := 0, queries := 0, timeouts := 0 }
        | .ok _taskId => onPagePoll api 0 max_retries

/-! ### Stub APIs for the polling-loop claims -/

/-- A well-formed task-post response carrying a task id. -/
def stubTaskPost : Json :=
  .jobj [("tasks", .jarr [.jobj [("id", .jstr "task-1")]])]

/-- A status response reporting status `s`. -/
def stubStatus (s : String) : Json :=
  .jobj [("tasks", .jarr [.jobj [("status", .jstr s)]])]

/-- The results response the stub returns once the task is ready. -/
def stubResults : Json :=
  .jobj [("tasks", .jarr [.jobj [("result", .jarr [])]])]

/-- Stub API that reports completion exactly on poll attempt `k` and a
pending crawl on every other attempt. -/
def stubApi (k : Nat) : OnPageApi where
  taskPost := some stubTaskPost
  status := fun i => some (stubStatus (if i = k then "ready" else "crawl_in_progress"))
  results := some stubResults

/-- Stub API whose every status poll is pending. -/
def stubAllPending : OnPageApi where
  taskPost := some stubTaskPost
  status := fun _ => some (stubStatus "crawl_in_progress")
  results := some stubResults

/-- Stub API whose every status poll is malformed: the HTTP call fails
(`make_request` returns `None`). -/
def stubAllFailed : OnPageApi where
  taskPost := some stubTaskPost
  status := fun _ => none
  results := some stubResults

/-- Stub API whose every status poll returns a dict lacking `"tasks"`. -/
def stubAllKeyless : OnPageApi where
  taskPost := some stubTaskPost
  status := fun _ => some (.jobj [("version", .jstr "0.1")])
  results := some stubResults

/-! ### The `DataForSEOAnalyzer` client and its query methods

`__init__` resolves credentials (argument `or` environment), displays an
error and returns early — leaving `base_url` and `headers` unset — when
either is missing, and otherwise sets `base_url` and the two headers.
`make_request` builds `f"{self.base_url}/{endpoint}"` and dispatches on the
HTTP method; a caught `requests` exception yields `None`. -/

/-- The standard base64 alphabet used by `base64.b64encode`. -/
def base64Alphabet : String :=
  "ABCDEFGHIJKLMNOPQRSTUVWXYZabcdefghijklmnopqrstuvwxyz0123456789+/"

/-- The base64 digit of a six-bit value. -/
def base64Digit (n : Nat) : Char :=
  base64Alphabet.data.getD n 'A'

/-- Base64 of a byte sequence, three bytes to four digits, `=`-padded. -/
def base64Chunks : List Nat → String
  | [] => ""
  | [a] =>
    String.mk [base64Digit (a / 4), base64Digit (a % 4 * 16)] ++ "=="
  | [a, b] =>
    String.mk [base64Digit (a / 4), base64Digit (a % 4 * 16 + b / 16),
               base64Digit (b % 16 * 4)] ++ "="
  | a :: b :: c :: rest =>
    String.mk [base64Digit (a / 4), base64Digit (a % 4 * 16 + b / 16),
               base64Digit (b % 16 * 4 + c / 64), base64Digit (c % 64)]
      ++ base64Chunks rest

/-- `base64.b64encode(s.encode()).decode()` on a UTF-8 string. -/
def base64Encode (s : String) : String :=
  base64Chunks (s.toUTF8.toList.map (fun b => b.toNat))

/-- Python `a or b` over optional credential strings: the first operand when
truthy (present and non-empty), otherwise the second. -/
def pyOrStr (a b : Option String) : Option String :=
  match a with
  | some s => if s.isEmpty then b else some s
  | none => b

/-- Truthiness of an optional string: present and non-empty. -/
def credTruthy (o : Option String) : Bool :=
  match o with
  | some s => !s.isEmpty
  | none => false

/-- The attribute state of a `DataForSEOAnalyzer` instance after
`__init__`. A `none` in `base_url` or `headers` models the attribute never
having been assigned, so that reading it raises `AttributeError`. -/
structure DataForSEOAnalyzer where
  login : Option String
  password : Option String
  base_url : Option String
  headers : Option (List (String × String))

/-- `DataForSEOAnalyzer.__init__(login, password)` with the environment
variables `DATAFORSEO_LOGIN` / `DATAFORSEO_PASSWORD` passed explicitly:
resolve each credential as `argument or environment`; when either resolved
credential is falsy, display an error and return early with `base_url` and
`headers` unset; otherwise set `base_url` and the authorization headers. -/
def DataForSEOAnalyzer.init (login password envLogin envPassword : Option String) :
    DataForSEOAnalyzer :=
  let l := pyOrStr login envLogin
  let p := pyOrStr password envPassword
  if !(credTruthy l) || !(credTruthy p) then
    { login := l, password := p, base_url := none, headers := none }
  else
    { login := l, password := p,
      base_url := some "https://api.dataforseo.com/v3",
      headers := some
        [("Authorization",
          "Basic " ++ base64Encode ((l.getD "") ++ ":" ++ (p.getD ""))),
         ("Content-Type", "application/json")] }

/-- The HTTP layer under `make_request`: `requests.get` / `requests.post`
applied to a URL, the instance headers and (for POST) a JSON body. A `none`
result models a raised `requests.exceptions.RequestException`, which
`make_request` catches, reports and converts to `None`. -/
structure HttpTransport where
  get : String → List (String × String) → Option Json
  post : String → List (String × String) → Option Json → Option Json

/-- Python `method.upper()` (ASCII, as every method string is ASCII). -/
def pyUpper (s : String) : String :=
  String.mk (s.data.map Char.toUpper)

/-- `DataForSEOAnalyzer.make_request`: build the URL from `self.base_url`
(raising `AttributeError` when `__init__` returned early), dispatch on the
upper-cased method, display an error and return `None` for an unsupported
method, and return the parsed response or `None` on a caught request
exception. -/
def make_request (self : DataForSEOAnalyzer) (tr : HttpTransport)
    (endpoint method : String) (data : Option Json) :
    Except PyError (Option Json) :=
  match self.base_url with
  | none => .error .attributeError
  | some bu =>
    let url := bu ++ "/" ++ endpoint
    if pyUpper method = "GET" then
      match self.headers with
      | none => .error .attributeError
      | some hs => .ok (tr.get url hs)
    else if pyUpper method = "POST" then
      match self.headers with
      | none => .error .attributeError
      | some hs => .ok (tr.post url hs data)
    else .ok none

/-- The post-check every query method applies to its response:
`if not response or "tasks" not in response: return None` and otherwise
return the response unchanged. -/
def requireTasks (response : Option Json) : Except PyError (Option Json) :=
  match response with
  | none => .ok none
  | some r =>
    if r.falsy then .ok none
    else do
      let has ← r.containsStr "tasks"
      if has then .ok (some r) else .ok none

/-- `DataForSEOAnalyzer.analyze_keywords` (defaults in the source:
`location_code=2840`, `language_code="en"`). -/
def analyze_keywords (self : DataForSEOAnalyzer) (tr : HttpTransport)
    (keywords : List String) (location_code : Int) (language_code : String) :
    Except PyError (Option Json) := do
  let data := Json.jarr [Json.jobj
    [("location_code", .jnum location_code),
     ("language_code", .jstr language_code),
     ("keywords", .jarr (keywords.map Json.jstr))]]
  let response ← make_request self tr "keywords_data/google/search_volume/live" "POST" (some data)
  requireTasks response

/-- `DataForSEOAnalyzer.analyze_competitors`. -/
def analyze_competitors (self : DataForSEOAnalyzer) (tr : HttpTransport)
    (domain : String) (location_code : Int) (language_code : String) :
    Except PyError (Option Json) := do
  let data := Json.jarr [Json.jobj
    [("target", .jstr domain),
     ("location_code", .jnum location_code),
     ("language_code", .jstr language_code)]]
  let response ← make_request self tr "domain_analytics/competitors/live" "POST" (some data)
  requireTasks response

/-- `DataForSEOAnalyzer.analyze_backlinks` (default `limit=100`). -/
def analyze_backlinks (self : DataForSEOAnalyzer) (tr : HttpTransport)
    (domain : String) (limit : Int) : Except PyError (Option Json) := do
  let data := Json.jarr [Json.jobj
    [("target", .jstr domain),
     ("limit", .jnum limit)]]
  let response ← make_request self tr "backlinks/backlinks/live" "POST" (some data)
  requireTasks response

/-- `DataForSEOAnalyzer.analyze_serp`. -/
def analyze_serp (self : DataForSEOAnalyzer) (tr : HttpTransport)
    (keyword : String) (location_code : Int) (language_code : String) :
    Except PyError (Option Json) := do
  let data := Json.jarr [Json.jobj
    [("keyword", .jstr keyword),
     ("location_code", .jnum location_code),
     ("language_code", .jstr language_code),
     ("depth", .jnum 100)]]
  let response ← make_request self tr "serp/google/organic/live/regular" "POST" (some data)
  requireTasks response

/-- `DataForSEOAnalyzer.analyze_keyword_ideas` (default `limit=100`). -/
def analyze_keyword_ideas (self : DataForSEOAnalyzer) (tr : HttpTransport)
    (seed_keywords : List String) (location_code : Int) (language_code : String)
    (limit : Int) : Except PyError (Option Json) := do
  let data := Json.jarr [Json.jobj
    [("location_code", .jnum location_code),
     ("language_code", .jstr language_code),
     ("keywords", .jarr (seed_keywords.map Json.jstr)),
     ("limit", .jnum limit)]]
  let response ← make_request self tr "keywords_data/google/keyword_ideas/live" "POST" (some data)
  requireTasks response

/-- `DataForSEOAnalyzer.analyze_content_gaps`. -/
def analyze_content_gaps (self : DataForSEOAnalyzer) (tr : HttpTransport)
    (domain : String) (competitors : List String) (location_code : Int)
    (language_code : String) : Except PyError (Option Json) := do
  let data := Json.jarr [Json.jobj
    [("targets", .jarr ((domain :: competitors).map Json.jstr)),
     ("location_code", .jnum location_code),
     ("language_code", .jstr language_code),
     ("filters", .jarr [.jobj
       [("filter_type", .jstr "not_in"),
        ("from", .jstr domain)]]),
     ("limit", .jnum 100)]]
  let response ← make_request self tr "domain_analytics/keywords_intersections/live" "POST" (some data)
  requireTasks response

/-! ### Response-to-row flattening in the display functions

`display_keyword_analysis` builds one flat row per element of each task's
result's `"items"` list; `display_on_page_analysis` instead keeps a single
summary record, overwritten from `item["items"][0]` for each result entry
whose `"items"` list is non-empty. Both start by treating a falsy analyzer
result as a failure and end by reporting a warning when nothing was
collected. Each Python `for` loop becomes a recursive function threading
the accumulator. -/

/-- One row of the keyword-analysis table. -/
structure KRow where
  keyword : Json
  search_volume : Json
  cpc : Json
  competition : Json
deriving Repr

/-- The row `display_keyword_analysis` appends for one leaf item. -/
def keywordRowOf (kd : Json) : Except PyError KRow := do
  let kw ← kd.pyGetN "keyword"
  let sv ← kd.pyGetN "search_volume"
  let c ← kd.pyGetN "cpc"
  let comp ← kd.pyGetN "competition"
  pure { keyword := kw, search_volume := sv, cpc := c, competition := comp }

/-- `for keyword_data in item.get("items", [])`. -/
def kwItemsLoop (acc : List KRow) : List Json → Except PyError (List KRow)
  | [] => .ok acc
  | kd :: rest => do
    let row ← keywordRowOf kd
    kwItemsLoop (acc ++ [row]) rest

/-- `for item in task.get("result", [])`. -/
def kwResultLoop (acc : List KRow) : List Json → Except PyError (List KRow)
  | [] => .ok acc
  | item :: rest => do
    let items ← item.pyGetD "items" (.jarr [])
    let itemList ← items.iter
    let acc2 ← kwItemsLoop acc itemList
    kwResultLoop acc2 rest

/-- `for task in result.get("tasks", [])`. -/
def kwTasksLoop (acc : List KRow) : List Json → Except PyError (List KRow)
  | [] => .ok acc
  | task :: rest => do
    let res ← task.pyGetD "result" (.jarr [])
    let resList ← res.iter
    let acc2 ← kwResultLoop acc resList
    kwTasksLoop acc2 rest

/-- The `data` list built by `display_keyword_analysis` from the analyzer
response. -/
def keywordRows (result : Json) : Except PyError (List KRow) := do
  let tasks ← result.pyGetD "tasks" (.jarr [])
  let taskList ← tasks.iter
  kwTasksLoop [] taskList

/-- What `display_keyword_analysis` shows: the failure message for a `None`
or falsy analyzer result, the `"No keyword data found."` warning for an
empty row list, or the rendered table. -/
inductive KeywordDisplay where
  | failedError
  | noDataWarning
  | rendered (rows : List KRow)
  | crash (e : PyError)
deriving Repr

/-- `display_keyword_analysis`, parameterized by the value
`analyzer.analyze_keywords(keywords)` returned. -/
def display_keyword_analysis (result : Option Json) : KeywordDisplay :=
  match result with
  | none => .failedError
  | some r =>
    if r.falsy then .failedError
    else
      match keywordRows r with
      | .error e => .crash e
      | .ok [] => .noDataWarning
      | .ok rows => .rendered rows

/-- The `on_page_data` summary record of `display_on_page_analysis`. -/
structure OnPageRow where
  url : Json
  status_code : Json
  page_title : Json
  meta_description : Json
  h1 : Json
  h2 : Json
  images : Json
  internal_links : Json
  external_links : Json
  load_time : Json
deriving Repr

/-- The record `display_on_page_analysis` builds from
`page_data = item["items"][0]`, each field a defaulted `get` chain. -/
def onPageRowOf (page_data : Json) : Except PyError OnPageRow := do
  let url ← page_data.pyGetN "url"
  let sc ← page_data.pyGetN "status_code"
  let meta ← page_data.pyGetD "meta" (.jobj [])
  let title ← meta.pyGetN "title"
  let desc ← meta.pyGetN "description"
  let pm ← page_data.pyGetD "page_metrics" (.jobj [])
  let h1o ← pm.pyGetD "h1" (.jobj [])
  let h1c ← h1o.pyGetN "count"
  let h2o ← pm.pyGetD "h2" (.jobj [])
  let h2c ← h2o.pyGetN "count"
  let imo ← pm.pyGetD "images" (.jobj [])
  let imc ← imo.pyGetN "count"
  let ilo ← pm.pyGetD "internal_links" (.jobj [])
  let ilc ← ilo.pyGetN "count"
  let elo ← pm.pyGetD "external_links" (.jobj [])
  let elc ← elo.pyGetN "count"
  let pt ← page_data.pyGetD "page_timing" (.jobj [])
  let lt ← pt.pyGetN "time_to_interactive"
  pure { url := url, status_code := sc, page_title := title,
         meta_description := desc, h1 := h1c, h2 := h2c, images := imc,
         internal_links := ilc, external_links := elc, load_time := lt }

/-- `for item in task.get("result", [])` in `display_on_page_analysis`:
`if "items" in item and item["items"]:` overwrite `on_page_data` from
`item["items"][0]`. -/
def opItemLoop (acc : Option OnPageRow) : List Json → Except PyError (Option OnPageRow)
  | [] => .ok acc
  | item :: rest => do
    let has ← item.containsStr "items"
    if has then do
      let items ← item.getKey "items"
      if items.falsy then opItemLoop acc rest
      else do
        let pd ← items.getIdx 0
        let row ← onPageRowOf pd
        opItemLoop (some row) rest
    else opItemLoop acc rest

/-- `for task in result.get("tasks", [])` in `display_on_page_analysis`. -/
def opTaskLoop (acc : Option OnPageRow) : List Json → Except PyError (Option OnPageRow)
  | [] => .ok acc
  | task :: rest => do
    let res ← task.pyGetD "result" (.jarr [])
    let resList ← res.iter
    let acc2 ← opItemLoop acc resList
    opTaskLoop acc2 rest

/-- The final `on_page_data` value of `display_on_page_analysis` (`none`
models the initial empty dict, so the warning branch). The subsequent
content/checks sections render fields of the captured `page_metrics` and
create no further summary records. -/
def onPageScan (result : Json) : Except PyError (Option OnPageRow) := do
  let tasks ← result.pyGetD "tasks" (.jarr [])
  let tl ← tasks.iter
  opTaskLoop none tl

/-- What `display_on_page_analysis` shows for its summary section. -/
inductive OnPageDisplay where
  | failedError
  | noDataWarning
  | rendered (row : OnPageRow)
  | crash (e : PyError)
deriving Repr

/-- `display_on_page_analysis`, parameterized by the value
`analyzer.analyze_on_page(url)` returned. -/
def display_on_page_analysis (result : Option Json) : OnPageDisplay :=
  match result with
  | none => .failedError
  | some r =>
    if r.falsy then .failedError
    else
      match onPageScan r with
      | .error e => .crash e
      | .ok none => .noDataWarning
      | .ok (some row) => .rendered row

/-- A well-formed nested response: for each task a list of result entries,
each carrying its `"items"` leaf list. -/
def mkNestedResponse (tss : List (List (List Json))) : Json :=
  .jobj [("tasks", .jarr (tss.map (fun ts =>
    .jobj [("result", .jarr (ts.map (fun itms =>
      .jobj [("items", .jarr itms)])))])))]

/-- The claim's leaf-item count: the number of elements of all the
`"items"` lists of a well-formed nested response. -/
def leafItemCount (tss : List (List (List Json))) : Nat :=
  (tss.map (fun ts => (ts.map (fun itms => itms.length)).sum)).sum

/-- The number of summary records `display_on_page_analysis` ends up with:
one when `on_page_data` was ever assigned, zero otherwise. -/
def onPageRowCount (result : Json) : Except PyError Nat :=
  (onPageScan result).map (fun o => o.elim 0 (fun _ => 1))

/-! ### The bootstrap HTTP handler (`src/api/index.py`) -/

/-- The observable effect of one `Handler.do_GET` call: the response status
and headers/body written, and the child-process command spawned (if any). -/
structure BootstrapResponse where
  status : Nat
  contentType : Option String
  body : Option String
  errorMessage : Option String
  launched : Option (List String)
deriving Repr

/-- `Handler.do_GET`: on the exact path `"/"`, spawn the dashboard command
bound to the configured port and answer `200 text/plain
"Streamlit app launching..."`; on every other path answer
`404 Not Found` and spawn nothing. -/
def handler_do_GET (port : Nat) (path : String) : BootstrapResponse :=
  if path = "/" then
    { status := 200,
      contentType := some "text/plain",
      body := some "Streamlit app launching...",
      errorMessage := none,
      launched := some ["streamlit", "run", "alwrity.py",
                        "--server.port", toString port,
                        "--server.address", "0.0.0.0"] }
  else
    { status := 404,
      contentType := none,
      body := none,
      errorMessage := some "Not Found",
      launched := none }

/-! ### Document loading (`src/lib/utils/document_rag.py`) -/

/-- The extension part of `os.path.splitext(p)`: within the last
path component, the suffix from the last dot, provided some non-dot
character of the component precedes that dot (so that leading dots, as in
`".bashrc"`, start no extension). -/
def splitextExt (p : String) : String :=
  let base := (p.data.reverse.takeWhile (fun c => c ≠ '/')).reverse
  let rest := base.dropWhile (fun c => c = '.')
  if rest.contains '.' then
    String.mk ('.' :: (rest.reverse.takeWhile (fun c => c ≠ '.')).reverse)
  else ""

/-- `os.path.splitext(filepath)[1].lower()` (ASCII lowering, as every
dispatched extension is ASCII). -/
def extLower (p : String) : String :=
  String.mk ((splitextExt p).data.map Char.toLower)

/-- The file system and extraction libraries under `load_document_text`:
reading a file as UTF-8 text, the per-page `extract_text()` results of
`PyPDF2.PdfReader` (a page may yield `None`), and the paragraph texts of
`docx.Document`. An `error` models any exception raised while opening or
parsing, which `load_document_text` catches and logs. -/
structure FileSystem where
  readText : String → Except PyError String
  readPdf : String → Except PyError (List (Option String))
  readDocx : String → Except PyError (List String)

/-- The PDF branch: concatenate every truthy page text followed by a
newline. -/
def pdfJoin (pages : List (Option String)) : String :=
  pages.foldl (fun acc pt =>
    match pt with
    | some t => if t.isEmpty then acc else acc ++ t ++ "\n"
    | none => acc) ""

/-- The DOCX branch: `"\n".join(p.text for p in document.paragraphs)`. -/
def docxJoin (paras : List String) : String :=
  String.intercalate "\n" paras

/-- `load_document_text`: dispatch on the lowercased extension, fall
through to `""` for an unrecognized extension, and catch any extraction
exception, also returning `""`. -/
def load_document_text (fs : FileSystem) (filepath : String) : String :=
  let ext := extLower filepath
  let attempt : Except PyError String :=
    if ext = ".txt" ∨ ext = ".md" then fs.readText filepath
    else if ext = ".pdf" then (fs.readPdf filepath).map pdfJoin
    else if ext = ".docx" then (fs.readDocx filepath).map docxJoin
    else .ok ""
  match attempt with
  | .ok s => s
  | .error _ => ""

/-! ### Prompts forwarded to the text-generation call -/

/-- Python `s[:n]`: the first `n` characters. -/
def pySlice (s : String) (n : Nat) : String :=
  String.mk (s.data.take n)

/-- The prompt template of `summarize_text`. -/
def summarizePrompt (text filename : String) : String :=
  "Provide a brief summary for the following document \x27" ++ filename
    ++ "\x27:\n" ++ text ++ "\n\nSummary:"

/-- The prompts `summarize_text` forwards to `llm_text_gen`: none when the
text is falsy (the function returns `""` without calling the LLM), else
exactly its template applied once. -/
def summarizeLlmPrompts (text filename : String) : List String :=
  if text.isEmpty then [] else [summarizePrompt text filename]

/-- One `process_folder` loop iteration, restricted to the prompts that
reach `llm_text_gen`: load the file's text and, when truthy, summarize its
first 4000 characters. -/
def processStep (fs : FileSystem) (acc : List String) (pn : String × String) :
    List String :=
  let text := load_document_text fs pn.1
  if text.isEmpty then acc
  else acc ++ summarizeLlmPrompts (pySlice text 4000) pn.2

/-- `process_folder`, restricted to the prompts that reach `llm_text_gen`,
over the walked files as path/name pairs. -/
def process_folder_llmPrompts (fs : FileSystem)
    (files : List (String × String)) : List String :=
  files.foldl (processStep fs) []

/-- The fixed instruction the audit prompt opens with. -/
def auditPromptHeader : String :=
  "Analyze the following web page content and suggest SEO keywords, blog topic ideas, and improvements to increase organic visibility.\n\n"

/-- `run_dataforseo_audit`, restricted to the prompts that reach
`llm_text_gen`: when the fetched page text is truthy, one prompt made of
the fixed instruction followed by `page_text[:4000]`; otherwise none (the
warning branch). -/
def run_dataforseo_audit_llmPrompts (page_text : String) : List String :=
  if page_text.isEmpty then []
  else [auditPromptHeader ++ pySlice page_text 4000]

/-! ### Stub inputs and classification predicates used by the theorems -/

/-- API whose task-post response maps `"tasks"` to an empty list. -/
def crashApiEmptyTasks : OnPageApi where
  taskPost := some (.jobj [("tasks", .jarr [])])
  status := fun _ => none
  results := none

/-- API whose task-post response's first task lacks the `"id"` key. -/
def crashApiNoId : OnPageApi where
  taskPost := some (.jobj [("tasks", .jarr [.jobj [("status_code", .jnum 20100)]])])
  status := fun _ => none
  results := none

/-- API whose status response's first task lacks the `"status"` key. -/
def crashApiNoStatus : OnPageApi where
  taskPost := some stubTaskPost
  status := fun _ => some (.jobj [("tasks", .jarr [.jobj [("x", .null)]])])
  results := none

/-- A malformed status response in the sense of the polling loop's guard:
the HTTP call failed (`None`), or the parsed dict lacks the `"tasks"`
key. -/
def malformedStatus : Option Json → Prop
  | none => True
  | some j => ∃ kvs, j = Json.jobj kvs ∧ j.lookup "tasks" = none

/-- A transport answering every request with the same response. -/
def constTr (resp : Option Json) : HttpTransport where
  get := fun _ _ => resp
  post := fun _ _ _ => resp

/-- A transport whose every request raises (is caught and yields `None`). -/
def nullTr : HttpTransport where
  get := fun _ _ => none
  post := fun _ _ _ => none

/-- An analyzer constructed with full credentials. -/
def readyAnalyzer : DataForSEOAnalyzer :=
  DataForSEOAnalyzer.init (some "login") (some "password") none none

/-- A query response the `"tasks"` gate rejects: a failed call, or a dict
lacking the `"tasks"` key. -/
def badTasksResp (resp : Option Json) : Prop :=
  resp = none ∨ ∃ kvs, resp = some (Json.jobj kvs) ∧ (Json.jobj kvs).lookup "tasks" = none

/-- The row `display_keyword_analysis` builds from a leaf dict. -/
def kRowOfKvs (kvs : List (String × Json)) : KRow where
  keyword := ((Json.jobj kvs).lookup "keyword").getD .null
  search_volume := ((Json.jobj kvs).lookup "search_volume").getD .null
  cpc := ((Json.jobj kvs).lookup "cpc").getD .null
  competition := ((Json.jobj kvs).lookup "competition").getD .null

/-- A well-formed nested response whose leaves are arbitrary dicts. -/
def mkLeafResponse (tss : List (List (List (List (String × Json))))) : Json :=
  mkNestedResponse (tss.map (fun ts => ts.map (fun itms => itms.map Json.jobj)))

/-- The leaf-item count of `mkLeafResponse tss`. -/
def leafDictCount (tss : List (List (List (List (String × Json))))) : Nat :=
  (tss.map (fun ts => (ts.map (fun itms => itms.length)).sum)).sum

/-- A leaf carrying only a `"url"` field. -/
def urlLeaf (u : String) : Json := .jobj [("url", .jstr u)]

/-- A well-formed nested response whose leaves are `urlLeaf` dicts. -/
def mkUrlResponse (tss : List (List (List String))) : Json :=
  mkNestedResponse (tss.map (fun ts => ts.map (fun us => us.map urlLeaf)))

/-- The summary record `display_on_page_analysis` builds from `urlLeaf u`:
every defaulted `get` chain yields `None` except the URL. -/
def opUrlRow (u : String) : OnPageRow where
  url := .jstr u
  status_code := .null
  page_title := .null
  meta_description := .null
  h1 := .null
  h2 := .null
  images := .null
  internal_links := .null
  external_links := .null
  load_time := .null

/-- The effect of one result entry on `on_page_data`: an empty `"items"`
list leaves it unchanged, a non-empty one overwrites it from the first
element. -/
def opStep (acc : Option OnPageRow) (us : List String) : Option OnPageRow :=
  match us with
  | [] => acc
  | u :: _ => some (opUrlRow u)

/-- One task, one result entry, two leaf items. -/
def c4Tss : List (List (List Json)) :=
  [[[Json.jobj [("keyword", Json.jstr "a")], Json.jobj [("keyword", Json.jstr "b")]]]]

/-- A file system where text reads succeed and PDF parsing raises. -/
def c6Fs : FileSystem where
  readText := fun _ => .ok "hello"
  readPdf := fun _ => .error .ioError
  readDocx := fun _ => .ok ["a", "b"]

/-- A file system whose text files hold `"hi"`. -/
def c10Fs : FileSystem where
  readText := fun _ => .ok "hi"
  readPdf := fun _ => .error .ioError
  readDocx := fun _ => .ok []

/-! ### Helper lemmas -/

/-- Bind on an `ok` value reduces to the continuation. -/
lemma ok_bind {ε α β : Type} (a : α) (f : α → Except ε β) :
    (Except.ok a : Except ε α) >>= f = f a := rfl

/-- A key absent from a dict fails the Python `in` test. -/
lemma lookup_none_contains (kvs : List (String × Json)) (k : String)
    (h : (Json.jobj kvs).lookup k = none) :
    (Json.jobj kvs).containsStr k = .ok false := by
  simp only [Json.lookup, Option.map_eq_none'] at h
  simp only [Json.containsStr, List.find?_eq_none] at *
  congr 1
  simp only [List.any_eq_false]
  intro p hp
  simpa using h p hp

/-- A key present in a dict passes the Python `in` test. -/
lemma lookup_some_contains (kvs : List (String × Json)) (k : String) (v : Json)
    (h : (Json.jobj kvs).lookup k = some v) :
    (Json.jobj kvs).containsStr k = .ok true := by
  simp only [Json.lookup, Option.map_eq_some'] at h
  obtain ⟨p, hp, -⟩ := h
  have := List.find?_some hp
  have hmem := List.mem_of_find?_eq_some hp
  simp only [Json.containsStr]
  congr 1
  simp only [List.any_eq_true]
  exact ⟨p, hmem, this⟩

/-- A dict with a bound key is non-empty. -/
lemma lookup_some_ne_nil (kvs : List (String × Json)) (k : String) (v : Json)
    (h : (Json.jobj kvs).lookup k = some v) : kvs ≠ [] := by
  rintro rfl
  simp [Json.lookup] at h

/-- The `"tasks"` gate maps a failed or keyless response to `None`. -/
lemma requireTasks_bad (resp : Option Json) (h : badTasksResp resp) :
    requireTasks resp = .ok none := by
  rcases h with rfl | ⟨kvs, rfl, hlk⟩
  · rfl
  · by_cases hf : (Json.jobj kvs).falsy
    · simp [requireTasks, hf]
    · simp only [requireTasks, hf, Bool.false_eq_true, if_false,
        lookup_none_contains kvs "tasks" hlk, ok_bind]

/-- The `"tasks"` gate passes a dict carrying the key through unchanged. -/
lemma requireTasks_good (kvs : List (String × Json)) (v : Json)
    (h : (Json.jobj kvs).lookup "tasks" = some v) :
    requireTasks (some (Json.jobj kvs)) = .ok (some (Json.jobj kvs)) := by
  have hne := lookup_some_ne_nil kvs "tasks" v h
  have hf : (Json.jobj kvs).falsy = false := by
    simpa [Json.falsy, List.isEmpty_iff] using hne
  simp only [requireTasks, hf, Bool.false_eq_true, if_false,
    lookup_some_contains kvs "tasks" v h, ok_bind]
  simp

/-- Resource bounds of the polling loop, by induction on the remaining
fuel: at most `fuel` status queries, one sleep per query, at most one
timeout message, and a timeout only on the `None` return. -/
lemma onPagePoll_bounds (api : OnPageApi) (f r : Nat) :
    (onPagePoll api r f).queries ≤ f ∧
    (onPagePoll api r f).sleeps = (onPagePoll api r f).queries ∧
    (onPagePoll api r f).timeouts ≤ 1 ∧
    ((onPagePoll api r f).timeouts = 1 →
      (onPagePoll api r f).result = Except.ok none) := by
  induction f generalizing r with
  | zero => simp [onPagePoll]
  | succ n ih =>
    have step : ∀ o : PollOutcome, o.queries ≤ n → o.sleeps = o.queries →
        o.timeouts ≤ 1 → (o.timeouts = 1 → o.result = Except.ok none) →
        o.afterIteration.queries ≤ n + 1 ∧
        o.afterIteration.sleeps = o.afterIteration.queries ∧
        o.afterIteration.timeouts ≤ 1 ∧
        (o.afterIteration.timeouts = 1 →
          o.afterIteration.result = Except.ok none) := by
      intro o h1 h2 h3 h4
      simp [PollOutcome.afterIteration, h2]
      exact ⟨by omega, h3, h4⟩
    have term : ∀ res : Except PyError (Option Json),
        let o : PollOutcome := { result := res, sleeps := 0, queries := 0, timeouts := 0 }
        o.afterIteration.queries ≤ n + 1 ∧
        o.afterIteration.sleeps = o.afterIteration.queries ∧
        o.afterIteration.timeouts ≤ 1 ∧
        (o.afterIteration.timeouts = 1 →
          o.afterIteration.result = Except.ok none) := by
      intro res
      simp [PollOutcome.afterIteration]
    match hs : api.status r with
    | none =>
      have h := ih (r + 1)
      simp only [onPagePoll, hs]
      exact step _ h.1 h.2.1 h.2.2.1 h.2.2.2
    | some resp =>
      simp only [onPagePoll, hs]
      by_cases hf : resp.falsy
      · simp only [hf, if_true]
        have h := ih (r + 1)
        exact step _ h.1 h.2.1 h.2.2.1 h.2.2.2
      · simp only [hf, if_false, Bool.false_eq_true]
        match hc : resp.containsStr "tasks" with
        | .error e => exact term (.error e)
        | .ok false =>
          have h := ih (r + 1)
          exact step _ h.1 h.2.1 h.2.2.1 h.2.2.2
        | .ok true =>
          match hst : statusField resp with
          | .error e => exact term (.error e)
          | .ok status =>
            by_cases hr : status.pyEqStr "ready"
            · simp only [hr, if_true]
              exact term (.ok api.results)
            · simp only [hr, if_false, Bool.false_eq_true]
              have h := ih (r + 1)
              exact step _ h.1 h.2.1 h.2.2.1 h.2.2.2

/-- The keyword items loop appends one row per leaf dict, in order. -/
lemma kwItemsLoop_obj (itms : List (List (String × Json))) (acc : List KRow) :
    kwItemsLoop acc (itms.map Json.jobj) = .ok (acc ++ itms.map kRowOfKvs) := by
  induction itms generalizing acc with
  | nil => simp [kwItemsLoop]
  | cons x xs ih =>
    simp only [List.map_cons, kwItemsLoop]
    rw [show keywordRowOf (Json.jobj x) = Except.ok (kRowOfKvs x) from rfl, ok_bind]
    rw [ih]
    simp

/-- The keyword result loop concatenates the rows of its entries. -/
lemma kwResultLoop_obj (ts : List (List (List (String × Json)))) (acc : List KRow) :
    kwResultLoop acc (ts.map (fun itms => Json.jobj [("items", Json.jarr (itms.map Json.jobj))]))
      = .ok (acc ++ (ts.map (fun itms => itms.map kRowOfKvs)).flatten) := by
  induction ts generalizing acc with
  | nil => simp [kwResultLoop]
  | cons itms rest ih =>
    simp only [List.map_cons, kwResultLoop]
    rw [show (Json.jobj [("items", Json.jarr (itms.map Json.jobj))]).pyGetD "items" (.jarr [])
          = Except.ok (Json.jarr (itms.map Json.jobj)) from rfl, ok_bind]
    rw [show (Json.jarr (itms.map Json.jobj)).iter
          = Except.ok (itms.map Json.jobj) from rfl, ok_bind]
    rw [kwItemsLoop_obj, ok_bind]
    rw [ih]
    simp

/-- The keyword tasks loop concatenates the rows of its tasks. -/
lemma kwTasksLoop_obj (tss : List (List (List (List (String × Json))))) (acc : List KRow) :
    kwTasksLoop acc (tss.map (fun ts => Json.jobj [("result", Json.jarr
        (ts.map (fun itms => Json.jobj [("items", Json.jarr (itms.map Json.jobj))])))]))
      = .ok (acc ++ (tss.map (fun ts => (ts.map (fun itms => itms.map kRowOfKvs)).flatten)).flatten) := by
  induction tss generalizing acc with
  | nil => simp [kwTasksLoop]
  | cons ts rest ih =>
    simp only [List.map_cons, kwTasksLoop]
    rw [show (Json.jobj [("result", Json.jarr
          (ts.map (fun itms => Json.jobj [("items", Json.jarr (itms.map Json.jobj))])))]).pyGetD
          "result" (.jarr [])
          = Except.ok (Json.jarr (ts.map (fun itms =>
              Json.jobj [("items", Json.jarr (itms.map Json.jobj))]))) from rfl, ok_bind]
    rw [show (Json.jarr (ts.map (fun itms =>
          Json.jobj [("items", Json.jarr (itms.map Json.jobj))]))).iter
          = Except.ok (ts.map (fun itms =>
              Json.jobj [("items", Json.jarr (itms.map Json.jobj))])) from rfl, ok_bind]
    rw [kwResultLoop_obj, ok_bind]
    rw [ih]
    simp

/-- `display_keyword_analysis` flattening on a well-formed response: one
row per leaf dict, in document order. -/
lemma keywordRows_mkLeaf (tss : List (List (List (List (String × Json))))) :
    keywordRows (mkLeafResponse tss) = .ok ((tss.flatten.flatten).map kRowOfKvs) := by
  have expand : mkLeafResponse tss
      = Json.jobj [("tasks", Json.jarr (tss.map (fun ts => Json.jobj [("result", Json.jarr
          (ts.map (fun itms => Json.jobj [("items", Json.jarr (itms.map Json.jobj))])))])))] := by
    unfold mkLeafResponse mkNestedResponse
    simp [List.map_map, Function.comp_def]
  rw [keywordRows, expand]
  rw [show (Json.jobj [("tasks", Json.jarr (tss.map (fun ts => Json.jobj [("result", Json.jarr
        (ts.map (fun itms => Json.jobj [("items", Json.jarr (itms.map Json.jobj))])))])))]).pyGetD
        "tasks" (.jarr [])
        = Except.ok (Json.jarr (tss.map (fun ts => Json.jobj [("result", Json.jarr
            (ts.map (fun itms => Json.jobj [("items", Json.jarr (itms.map Json.jobj))])))])))
      from rfl, ok_bind]
  rw [show (Json.jarr (tss.map (fun ts => Json.jobj [("result", Json.jarr
        (ts.map (fun itms => Json.jobj [("items", Json.jarr (itms.map Json.jobj))])))]))).iter
        = Except.ok (tss.map (fun ts => Json.jobj [("result", Json.jarr
            (ts.map (fun itms => Json.jobj [("items", Json.jarr (itms.map Json.jobj))])))]))
      from rfl, ok_bind]
  rw [kwTasksLoop_obj]
  congr 1
  rw [List.nil_append]
  rw [List.map_flatten, List.map_flatten, List.flatten_flatten, List.map_map]
  congr 1

/-- The on-page item loop folds `opStep` over the entries. -/
lemma opItemLoop_url (ts : List (List String)) (acc : Option OnPageRow) :
    opItemLoop acc (ts.map (fun us => Json.jobj [("items", Json.jarr (us.map urlLeaf))]))
      = .ok (ts.foldl opStep acc) := by
  induction ts generalizing acc with
  | nil => simp [opItemLoop]
  | cons us rest ih =>
    simp only [List.map_cons, opItemLoop, List.foldl_cons]
    rw [show (Json.jobj [("items", Json.jarr (us.map urlLeaf))]).containsStr "items"
          = Except.ok true from rfl, ok_bind]
    simp only [if_true]
    rw [show (Json.jobj [("items", Json.jarr (us.map urlLeaf))]).getKey "items"
          = Except.ok (Json.jarr (us.map urlLeaf)) from rfl, ok_bind]
    match us with
    | [] =>
      simp only [List.map_nil, Json.falsy, List.isEmpty_nil, if_true]
      exact ih acc
    | u :: us2 =>
      simp only [List.map_cons, Json.falsy, List.isEmpty_cons, Bool.false_eq_true, if_false]
      rw [show (Json.jarr (urlLeaf u :: us2.map urlLeaf)).getIdx 0
            = Except.ok (urlLeaf u) from rfl, ok_bind]
      rw [show onPageRowOf (urlLeaf u) = Except.ok (opUrlRow u) from rfl, ok_bind]
      exact ih (some (opUrlRow u))

/-- The on-page task loop folds `opStep` over all result entries. -/
lemma opTaskLoop_url (tss : List (List (List String))) (acc : Option OnPageRow) :
    opTaskLoop acc (tss.map (fun ts => Json.jobj [("result", Json.jarr
        (ts.map (fun us => Json.jobj [("items", Json.jarr (us.map urlLeaf))])))]))
      = .ok (tss.flatten.foldl opStep acc) := by
  induction tss generalizing acc with
  | nil => simp [opTaskLoop]
  | cons ts rest ih =>
    simp only [List.map_cons, opTaskLoop, List.flatten_cons, List.foldl_append]
    rw [show (Json.jobj [("result", Json.jarr
          (ts.map (fun us => Json.jobj [("items", Json.jarr (us.map urlLeaf))])))]).pyGetD
          "result" (.jarr [])
          = Except.ok (Json.jarr (ts.map (fun us =>
              Json.jobj [("items", Json.jarr (us.map urlLeaf))]))) from rfl, ok_bind]
    rw [show (Json.jarr (ts.map (fun us =>
          Json.jobj [("items", Json.jarr (us.map urlLeaf))]))).iter
          = Except.ok (ts.map (fun us =>
              Json.jobj [("items", Json.jarr (us.map urlLeaf))])) from rfl, ok_bind]
    rw [opItemLoop_url, ok_bind]
    exact ih (ts.foldl opStep acc)

/-- `display_on_page_analysis` keeps only the fold of `opStep`. -/
lemma onPageScan_mkUrl (tss : List (List (List String))) :
    onPageScan (mkUrlResponse tss) = .ok (tss.flatten.foldl opStep none) := by
  have expand : mkUrlResponse tss
      = Json.jobj [("tasks", Json.jarr (tss.map (fun ts => Json.jobj [("result", Json.jarr
          (ts.map (fun us => Json.jobj [("items", Json.jarr (us.map urlLeaf))])))])))] := by
    unfold mkUrlResponse mkNestedResponse
    simp [List.map_map, Function.comp_def]
  rw [onPageScan, expand]
  rw [show (Json.jobj [("tasks", Json.jarr (tss.map (fun ts => Json.jobj [("result", Json.jarr
        (ts.map (fun us => Json.jobj [("items", Json.jarr (us.map urlLeaf))])))])))]).pyGetD
        "tasks" (.jarr [])
        = Except.ok (Json.jarr (tss.map (fun ts => Json.jobj [("result", Json.jarr
            (ts.map (fun us => Json.jobj [("items", Json.jarr (us.map urlLeaf))])))])))
      from rfl, ok_bind]
  rw [show (Json.jarr (tss.map (fun ts => Json.jobj [("result", Json.jarr
        (ts.map (fun us => Json.jobj [("items", Json.jarr (us.map urlLeaf))])))]))).iter
        = Except.ok (tss.map (fun ts => Json.jobj [("result", Json.jarr
            (ts.map (fun us => Json.jobj [("items", Json.jarr (us.map urlLeaf))])))]))
      from rfl, ok_bind]
  exact opTaskLoop_url tss none

/-- Folding `opStep` over empty `"items"` lists changes nothing. -/
lemma foldl_opStep_all_nil (l : List (List String)) (h : ∀ us ∈ l, us = [])
    (acc : Option OnPageRow) : l.foldl opStep acc = acc := by
  induction l generalizing acc with
  | nil => rfl
  | cons us rest ih =>
    rw [List.foldl_cons, h us (List.mem_cons_self us rest),
        ih (fun x hx => h x (List.mem_cons_of_mem _ hx))]
    rfl

/-- The keyword row list has exactly one row per leaf dict. -/
lemma leafDictCount_eq (tss : List (List (List (List (String × Json))))) :
    ((tss.flatten.flatten).map kRowOfKvs).length = leafDictCount tss := by
  rw [List.length_map, List.length_flatten, leafDictCount]
  rw [List.map_flatten, List.sum_flatten, List.map_map]
  congr 1

/-- A dict without `"tasks"` flattens to no keyword rows. -/
lemma keywordRows_no_tasks (kvs : List (String × Json))
    (hlk : (Json.jobj kvs).lookup "tasks" = none) :
    keywordRows (Json.jobj kvs) = .ok [] := by
  have h1 : (Json.jobj kvs).pyGetD "tasks" (Json.jarr []) = Except.ok (Json.jarr []) := by
    simp [Json.pyGetD, hlk]
  rw [keywordRows, h1, ok_bind]
  rw [show (Json.jarr ([] : List Json)).iter = Except.ok [] from rfl, ok_bind]
  rfl

/-- A dict without `"tasks"` leaves `on_page_data` unset. -/
lemma onPageScan_no_tasks (kvs : List (String × Json))
    (hlk : (Json.jobj kvs).lookup "tasks" = none) :
    onPageScan (Json.jobj kvs) = .ok none := by
  have h1 : (Json.jobj kvs).pyGetD "tasks" (Json.jarr []) = Except.ok (Json.jarr []) := by
    simp [Json.pyGetD, hlk]
  rw [onPageScan, h1, ok_bind]
  rw [show (Json.jarr ([] : List Json)).iter = Except.ok [] from rfl, ok_bind]
  rfl

/-- Every prompt accumulated by the `process_folder` fold comes from the
starting accumulator or from one of the walked files. -/
lemma mem_processStep_foldl (fs : FileSystem) (files : List (String × String))
    (acc : List String) (pr : String) (h : pr ∈ files.foldl (processStep fs) acc) :
    pr ∈ acc ∨ ∃ pn, pn ∈ files ∧
      pr ∈ summarizeLlmPrompts (pySlice (load_document_text fs pn.1) 4000) pn.2 := by
  induction files generalizing acc with
  | nil => exact Or.inl h
  | cons f rest ih =>
    rw [List.foldl_cons] at h
    rcases ih _ h with hacc | ⟨pn, hmem, hpr⟩
    · rw [processStep] at hacc
      by_cases ht : (load_document_text fs f.1).isEmpty
      · rw [if_pos ht] at hacc
        exact Or.inl hacc
      · rw [if_neg ht] at hacc
        rcases List.mem_append.mp hacc with h1 | h2
        · exact Or.inl h1
        · exact Or.inr ⟨f, List.mem_cons_self f rest, h2⟩
    · exact Or.inr ⟨pn, List.mem_cons_of_mem _ hmem, hpr⟩

/-! ### Claim theorems -/

/-- C1: for a stub API reporting completion exactly on poll attempt `k`
(`k` ranging over `0 .. max_retries + 1`), `analyze_on_page` returns the
results response — a non-`None` value — precisely when `k` falls within
the five-poll budget, and `None` otherwise; an all-pending, all-failing or
all-keyless status stream also yields `None`. -/
theorem analyze_on_page_ready_iff_within_budget :
    (∀ k : Fin 7,
      (analyze_on_page (stubApi k)).result =
        Except.ok (if (k : Nat) < max_retries then some stubResults else none))
    ∧ (analyze_on_page stubAllPending).result = Except.ok none
    ∧ (analyze_on_page stubAllFailed).result = Except.ok none
    ∧ (analyze_on_page stubAllKeyless).result = Except.ok none := by
  refine ⟨fun k => ?_, rfl, rfl, rfl⟩
  fin_cases k <;> rfl

/-- C2: a malformed status response — a failed HTTP call or a dict lacking
`"tasks"` — makes the polling loop take exactly the step a pending status
takes: consume one retry (one sleep, one query) and continue, with no
distinguishable transport-error outcome. -/
theorem poll_malformed_like_pending (api : OnPageApi) (r f : Nat) :
    (malformedStatus (api.status r) →
      onPagePoll api r (f + 1) = (onPagePoll api (r + 1) f).afterIteration)
    ∧ (∀ resp s, api.status r = some resp → resp.falsy = false →
        resp.containsStr "tasks" = .ok true →
        statusField resp = .ok s → s.pyEqStr "ready" = false →
        onPagePoll api r (f + 1) = (onPagePoll api (r + 1) f).afterIteration) := by
  constructor
  · intro h
    match hs : api.status r with
    | none => simp [onPagePoll, hs]
    | some j =>
      rw [hs] at h
      obtain ⟨kvs, rfl, hlk⟩ := h
      by_cases hf : (Json.jobj kvs).falsy
      · simp [onPagePoll, hs, hf]
      · simp [onPagePoll, hs, hf, lookup_none_contains kvs "tasks" hlk]
  · intro resp s h1 h2 h3 h4 h5
    simp [onPagePoll, h1, h2, h3, h4, h5]

/-- Witness for C2: the loop with a failed first poll takes exactly one
retry-consuming step. -/
theorem poll_malformed_witness :
    onPagePoll stubAllFailed 0 5 = (onPagePoll stubAllFailed 1 4).afterIteration :=
  (poll_malformed_like_pending stubAllFailed 0 4).1 True.intro

/-- C3: for every API behaviour, `analyze_on_page` performs at most
`max_retries = 5` loop iterations, each made of exactly one fixed
`sleepSeconds = 10` second sleep followed by one status query; the timeout
message appears at most once, and when it appears the function returns
`None`. -/
theorem analyze_on_page_bounded (api : OnPageApi) :
    (analyze_on_page api).queries ≤ max_retries ∧
    (analyze_on_page api).sleeps = (analyze_on_page api).queries ∧
    (analyze_on_page api).timeouts ≤ 1 ∧
    ((analyze_on_page api).timeouts = 1 →
      (analyze_on_page api).result = Except.ok none) ∧
    max_retries = 5 ∧ sleepSeconds = 10 := by
  have loop := onPagePoll_bounds api max_retries 0
  unfold analyze_on_page
  match hp : api.taskPost with
  | none => simp [max_retries, sleepSeconds]
  | some tr =>
    by_cases hf : tr.falsy
    · simp [hf, max_retries, sleepSeconds]
    · simp only [hf, if_false, Bool.false_eq_true]
      match hc : tr.containsStr "tasks" with
      | .error e => simp [max_retries, sleepSeconds]
      | .ok false => simp [max_retries, sleepSeconds]
      | .ok true =>
        match hid : (do
            let tasks ← tr.getKey "tasks"
            let first ← tasks.getIdx 0
            first.getKey "id" : Except PyError Json) with
        | .error e => simp [max_retries, sleepSeconds]
        | .ok tid => exact ⟨loop.1, loop.2.1, loop.2.2.1, loop.2.2.2, rfl, rfl⟩

/-- Witness for C3: with every poll pending the timeout fires and the
result is `None`. -/
theorem analyze_on_page_bounded_witness :
    (analyze_on_page stubAllPending).result = Except.ok none :=
  (analyze_on_page_bounded stubAllPending).2.2.2.1 rfl

/-- C4 counterexample: on a response with two leaf items,
`display_keyword_analysis` flattening yields two rows — one per leaf — but
`display_on_page_analysis` ends with a single summary record, so the
one-row-per-leaf-item claim fails for `display_on_page_analysis`. -/
theorem display_on_page_not_one_row_per_leaf :
    (keywordRows (mkNestedResponse c4Tss)).map List.length
      = Except.ok (leafItemCount c4Tss)
    ∧ ¬ (onPageRowCount (mkNestedResponse c4Tss)
      = Except.ok (leafItemCount c4Tss)) := by
  constructor
  · rfl
  · intro h
    have h1 : onPageRowCount (mkNestedResponse c4Tss) = Except.ok 1 := rfl
    have h2 : leafItemCount c4Tss = 2 := rfl
    rw [h1, h2] at h
    exact absurd (Except.ok.inj h) (by decide)

/-- C4 (amended): `display_keyword_analysis` flattening produces exactly
one row per leaf item, in order; `display_on_page_analysis` instead keeps
at most one summary record — the fold of `opStep`, i.e. the first element
of the last non-empty `"items"` list; and both report the no-data warning
(not an error) when the `"tasks"` key is absent or the leaf lists are
empty. -/
theorem flattening_rows_amended :
    (∀ tss : List (List (List (List (String × Json)))),
      keywordRows (mkLeafResponse tss)
        = Except.ok ((tss.flatten.flatten).map kRowOfKvs)
      ∧ ((tss.flatten.flatten).map kRowOfKvs).length = leafDictCount tss)
    ∧ (∀ tss : List (List (List String)),
      onPageScan (mkUrlResponse tss) = Except.ok (tss.flatten.foldl opStep none)
      ∧ ∃ n, onPageRowCount (mkUrlResponse tss) = Except.ok n ∧ n ≤ 1)
    ∧ (∀ kvs : List (String × Json),
        (Json.jobj kvs).lookup "tasks" = none → kvs ≠ [] →
      display_keyword_analysis (some (Json.jobj kvs)) = KeywordDisplay.noDataWarning
      ∧ display_on_page_analysis (some (Json.jobj kvs)) = OnPageDisplay.noDataWarning)
    ∧ (∀ tss : List (List (List (List (String × Json)))), leafDictCount tss = 0 →
      display_keyword_analysis (some (mkLeafResponse tss)) = KeywordDisplay.noDataWarning)
    ∧ (∀ tss : List (List (List String)), (∀ us ∈ tss.flatten, us = []) →
      display_on_page_analysis (some (mkUrlResponse tss)) = OnPageDisplay.noDataWarning) := by
  refine ⟨fun tss => ⟨keywordRows_mkLeaf tss, leafDictCount_eq tss⟩,
          fun tss => ⟨onPageScan_mkUrl tss, ?_⟩,
          fun kvs hlk hne => ⟨?_, ?_⟩, fun tss h0 => ?_, fun tss hall => ?_⟩
  · refine ⟨(tss.flatten.foldl opStep none).elim 0 (fun _ => 1), ?_, ?_⟩
    · rw [onPageRowCount, onPageScan_mkUrl tss]
      rfl
    · cases tss.flatten.foldl opStep none <;> simp
  · have hf : (Json.jobj kvs).falsy = false := by
      simpa [Json.falsy, List.isEmpty_iff] using hne
    simp [display_keyword_analysis, hf, keywordRows_no_tasks kvs hlk]
  · have hf : (Json.jobj kvs).falsy = false := by
      simpa [Json.falsy, List.isEmpty_iff] using hne
    simp [display_on_page_analysis, hf, onPageScan_no_tasks kvs hlk]
  · have hrows : keywordRows (mkLeafResponse tss) = .ok [] := by
      rw [keywordRows_mkLeaf tss]
      congr 1
      have := leafDictCount_eq tss
      rw [h0] at this
      exact List.length_eq_zero.mp this
    have hf : (mkLeafResponse tss).falsy = false := rfl
    simp [display_keyword_analysis, hf, hrows]
  · have hscan : onPageScan (mkUrlResponse tss) = .ok none := by
      rw [onPageScan_mkUrl tss, foldl_opStep_all_nil tss.flatten hall none]
    have hf : (mkUrlResponse tss).falsy = false := rfl
    simp [display_on_page_analysis, hf, hscan]

/-- Witness for the amended C4: a truthy dict without `"tasks"` draws the
no-data warning from both display functions. -/
theorem flattening_rows_amended_witness :
    display_keyword_analysis (some (Json.jobj [("version", Json.null)]))
      = KeywordDisplay.noDataWarning
    ∧ display_on_page_analysis (some (Json.jobj [("version", Json.null)]))
      = OnPageDisplay.noDataWarning :=
  flattening_rows_amended.2.2.1 [("version", Json.null)] rfl (by simp)

/-- C5: `Handler.do_GET` answers 200 with the plain-text acknowledgment
and spawns the dashboard command exactly on the path `"/"`, and answers
404 spawning nothing on every other path. -/
theorem handler_routes (port : Nat) (path : String) :
    (path = "/" → handler_do_GET port path =
      { status := 200, contentType := some "text/plain",
        body := some "Streamlit app launching...", errorMessage := none,
        launched := some ["streamlit", "run", "alwrity.py",
                          "--server.port", toString port,
                          "--server.address", "0.0.0.0"] })
    ∧ (path ≠ "/" →
        handler_do_GET port path =
          { status := 404, contentType := none, body := none,
            errorMessage := some "Not Found", launched := none })
    ∧ (((handler_do_GET port path).status = 200
        ∧ (handler_do_GET port path).launched ≠ none) ↔ path = "/") := by
  by_cases h : path = "/" <;> simp [handler_do_GET, h]

/-- Witness for C5: a non-root path is answered 404 with nothing
spawned. -/
theorem handler_routes_witness :
    handler_do_GET 3000 "/favicon.ico" =
      { status := 404, contentType := none, body := none,
        errorMessage := some "Not Found", launched := none } :=
  (handler_routes 3000 "/favicon.ico").2.1 (by decide)

/-- C6: `load_document_text` dispatches on the lowercased extension —
`.txt`/`.md` to the text read, `.pdf` to page-wise extraction, `.docx` to
the paragraph join — returns `""` for every unrecognized extension, and
turns every extraction exception into `""` instead of propagating it. -/
theorem load_document_text_dispatch (fs : FileSystem) (p : String) :
    ((extLower p = ".txt" ∨ extLower p = ".md") →
        (∀ s, fs.readText p = .ok s → load_document_text fs p = s)
      ∧ (∀ e, fs.readText p = .error e → load_document_text fs p = ""))
    ∧ (extLower p = ".pdf" →
        (∀ pgs, fs.readPdf p = .ok pgs → load_document_text fs p = pdfJoin pgs)
      ∧ (∀ e, fs.readPdf p = .error e → load_document_text fs p = ""))
    ∧ (extLower p = ".docx" →
        (∀ ps, fs.readDocx p = .ok ps → load_document_text fs p = docxJoin ps)
      ∧ (∀ e, fs.readDocx p = .error e → load_document_text fs p = ""))
    ∧ (extLower p ∉ ([".txt", ".md", ".pdf", ".docx"] : List String) →
        load_document_text fs p = "") := by
  refine ⟨fun hx => ⟨fun s hs => ?_, fun e he => ?_⟩,
          fun hx => ⟨fun pgs hs => ?_, fun e he => ?_⟩,
          fun hx => ⟨fun ps hs => ?_, fun e he => ?_⟩, fun hx => ?_⟩
  · rcases hx with h | h <;> simp [load_document_text, h, hs]
  · rcases hx with h | h <;> simp [load_document_text, h, he]
  · simp [load_document_text, hx, hs, Except.map]
  · simp [load_document_text, hx, he, Except.map]
  · simp [load_document_text, hx, hs, Except.map]
  · simp [load_document_text, hx, he, Except.map]
  · simp only [List.mem_cons, List.not_mem_nil, or_false, not_or] at hx
    obtain ⟨h1, h2, h3, h4⟩ := hx
    simp [load_document_text, h1, h2, h3, h4]

/-- Witness for C6: a `.txt` read succeeds, an uppercase `.PDF` whose
parse raises yields `""`, and an unrecognized `.png` yields `""`. -/
theorem load_document_text_dispatch_witness :
    load_document_text c6Fs "notes.txt" = "hello"
    ∧ load_document_text c6Fs "Doc.PDF" = ""
    ∧ load_document_text c6Fs "img.png" = "" :=
  ⟨(load_document_text_dispatch c6Fs "notes.txt").1 (Or.inl rfl) |>.1 "hello" rfl,
   (load_document_text_dispatch c6Fs "Doc.PDF").2.1 rfl |>.2 .ioError rfl,
   (load_document_text_dispatch c6Fs "img.png").2.2.2 (by decide)⟩

/-- C7: each of the six query methods returns `None` when the underlying
request failed or the response dict lacks the top-level `"tasks"` key, and
otherwise returns the parsed response unchanged. -/
theorem query_methods_tasks_gate (resp : Option Json) (kws comps : List String)
    (dom kw lang : String) (loc lim : Int) :
    (badTasksResp resp →
      analyze_keywords readyAnalyzer (constTr resp) kws loc lang = Except.ok none
      ∧ analyze_competitors readyAnalyzer (constTr resp) dom loc lang = Except.ok none
      ∧ analyze_backlinks readyAnalyzer (constTr resp) dom lim = Except.ok none
      ∧ analyze_serp readyAnalyzer (constTr resp) kw loc lang = Except.ok none
      ∧ analyze_keyword_ideas readyAnalyzer (constTr resp) kws loc lang lim = Except.ok none
      ∧ analyze_content_gaps readyAnalyzer (constTr resp) dom comps loc lang = Except.ok none)
    ∧ (∀ kvs v, resp = some (Json.jobj kvs) →
        (Json.jobj kvs).lookup "tasks" = some v →
      analyze_keywords readyAnalyzer (constTr resp) kws loc lang = Except.ok resp
      ∧ analyze_competitors readyAnalyzer (constTr resp) dom loc lang = Except.ok resp
      ∧ analyze_backlinks readyAnalyzer (constTr resp) dom lim = Except.ok resp
      ∧ analyze_serp readyAnalyzer (constTr resp) kw loc lang = Except.ok resp
      ∧ analyze_keyword_ideas readyAnalyzer (constTr resp) kws loc lang lim = Except.ok resp
      ∧ analyze_content_gaps readyAnalyzer (constTr resp) dom comps loc lang = Except.ok resp) := by
  have e1 : analyze_keywords readyAnalyzer (constTr resp) kws loc lang
      = requireTasks resp := rfl
  have e2 : analyze_competitors readyAnalyzer (constTr resp) dom loc lang
      = requireTasks resp := rfl
  have e3 : analyze_backlinks readyAnalyzer (constTr resp) dom lim
      = requireTasks resp := rfl
  have e4 : analyze_serp readyAnalyzer (constTr resp) kw loc lang
      = requireTasks resp := rfl
  have e5 : analyze_keyword_ideas readyAnalyzer (constTr resp) kws loc lang lim
      = requireTasks resp := rfl
  have e6 : analyze_content_gaps readyAnalyzer (constTr resp) dom comps loc lang
      = requireTasks resp := rfl
  constructor
  · intro h
    have := requireTasks_bad resp h
    exact ⟨e1.trans this, e2.trans this, e3.trans this,
           e4.trans this, e5.trans this, e6.trans this⟩
  · rintro kvs v rfl h
    have := requireTasks_good kvs v h
    exact ⟨e1.trans this, e2.trans this, e3.trans this,
           e4.trans this, e5.trans this, e6.trans this⟩

/-- Witness for C7: a failed request yields `None`, and a dict carrying
`"tasks"` is returned unchanged. -/
theorem query_methods_tasks_gate_witness :
    analyze_keywords readyAnalyzer (constTr none) [] 2840 "en" = Except.ok none
    ∧ analyze_serp readyAnalyzer
        (constTr (some (Json.jobj [("tasks", Json.jarr [])]))) "kw" 2840 "en"
      = Except.ok (some (Json.jobj [("tasks", Json.jarr [])])) :=
  ⟨((query_methods_tasks_gate none [] [] "d" "kw" "en" 2840 100).1 (Or.inl rfl)).1,
   ((query_methods_tasks_gate (some (Json.jobj [("tasks", Json.jarr [])]))
      [] [] "d" "kw" "en" 2840 100).2 [("tasks", Json.jarr [])] (Json.jarr [])
      rfl rfl).2.2.2.1⟩

/-- C8: a task-post response whose `"tasks"` list is empty raises
`IndexError`; one whose first task lacks `"id"` raises `KeyError`; a status
response whose first task lacks `"status"` raises `KeyError` — in each case
`analyze_on_page` crashes instead of returning `None`. -/
theorem analyze_on_page_crash_paths :
    (analyze_on_page crashApiEmptyTasks).result = Except.error .indexError
    ∧ (analyze_on_page crashApiNoId).result = Except.error .keyError
    ∧ (analyze_on_page crashApiNoStatus).result = Except.error .keyError :=
  ⟨rfl, rfl, rfl⟩

/-- C9: constructed without a usable login or password, `__init__` returns
early leaving `base_url` and `headers` unset, and every subsequent
`make_request` on that instance raises `AttributeError` rather than
returning `None` or an error value. -/
theorem init_missing_credentials (login password envL envP : Option String)
    (h : credTruthy (pyOrStr login envL) = false
       ∨ credTruthy (pyOrStr password envP) = false) :
    (DataForSEOAnalyzer.init login password envL envP).base_url = none
    ∧ (DataForSEOAnalyzer.init login password envL envP).headers = none
    ∧ (∀ tr endpoint method data,
        make_request (DataForSEOAnalyzer.init login password envL envP)
          tr endpoint method data = Except.error .attributeError) := by
  have hcond : (!(credTruthy (pyOrStr login envL))
      || !(credTruthy (pyOrStr password envP))) = true := by
    rcases h with h | h <;> simp [h]
  refine ⟨?_, ?_, ?_⟩ <;>
    simp only [DataForSEOAnalyzer.init, hcond, if_true]
  · intro tr endpoint method data
    rfl

/-- Witness for C9: with nothing supplied anywhere, a GET raises
`AttributeError`. -/
theorem init_missing_credentials_witness :
    make_request (DataForSEOAnalyzer.init none none none none)
      nullTr "serp/google/organic/live/regular" "GET" none
      = Except.error .attributeError :=
  (init_missing_credentials none none none none (Or.inl rfl)).2.2
    nullTr "serp/google/organic/live/regular" "GET" none

/-- C10: every prompt forwarded to the text-generation call carries at
most the first 4000 characters of its source text: the audit prompt is the
fixed instruction followed by a ≤-4000-character prefix of the page text,
and every `process_folder` summary prompt embeds a ≤-4000-character prefix
of the loaded document text. -/
theorem llm_prompt_truncation :
    (∀ page_text : String, ∀ pr ∈ run_dataforseo_audit_llmPrompts page_text,
      ∃ s rest, pr = auditPromptHeader ++ s
        ∧ page_text.data = s.data ++ rest ∧ s.length ≤ 4000)
    ∧ (∀ (fs : FileSystem) (files : List (String × String)),
      ∀ pr ∈ process_folder_llmPrompts fs files,
      ∃ pn s rest, pn ∈ files ∧ pr = summarizePrompt s pn.2
        ∧ (load_document_text fs pn.1).data = s.data ++ rest ∧ s.length ≤ 4000) := by
  have slice_data : ∀ (t : String), t.data = (pySlice t 4000).data ++ t.data.drop 4000 := by
    intro t
    rw [show (pySlice t 4000).data = t.data.take 4000 from rfl]
    exact (List.take_append_drop 4000 t.data).symm
  have slice_len : ∀ (t : String), (pySlice t 4000).length ≤ 4000 := by
    intro t
    rw [show (pySlice t 4000).length = (t.data.take 4000).length from rfl, List.length_take]
    exact min_le_left _ _
  constructor
  · intro pt pr hpr
    rw [run_dataforseo_audit_llmPrompts] at hpr
    by_cases hemp : pt.isEmpty
    · rw [if_pos hemp] at hpr
      exact absurd hpr (List.not_mem_nil pr)
    · rw [if_neg hemp] at hpr
      rw [List.mem_singleton] at hpr
      exact ⟨pySlice pt 4000, pt.data.drop 4000, hpr, slice_data pt, slice_len pt⟩
  · intro fs files pr hpr
    rw [process_folder_llmPrompts] at hpr
    rcases mem_processStep_foldl fs files [] pr hpr with habs | ⟨pn, hmem, hin⟩
    · exact absurd habs (List.not_mem_nil pr)
    · rw [summarizeLlmPrompts] at hin
      by_cases hemp : (pySlice (load_document_text fs pn.1) 4000).isEmpty
      · rw [if_pos hemp] at hin
        exact absurd hin (List.not_mem_nil pr)
      · rw [if_neg hemp] at hin
        rw [List.mem_singleton] at hin
        exact ⟨pn, pySlice (load_document_text fs pn.1) 4000,
               (load_document_text fs pn.1).data.drop 4000, hmem, hin,
               slice_data _, slice_len _⟩

/-- Witness for C10: the audit prompt on `"hello"` and the folder prompt
on a two-character text file both embed bounded prefixes. -/
theorem llm_prompt_truncation_witness :
    (∃ s rest, auditPromptHeader ++ pySlice "hello" 4000 = auditPromptHeader ++ s
      ∧ "hello".data = s.data ++ rest ∧ s.length ≤ 4000)
    ∧ (∃ pn s rest, pn ∈ [("a.txt", "a.txt")]
      ∧ summarizePrompt (pySlice "hi" 4000) "a.txt" = summarizePrompt s pn.2
      ∧ (load_document_text c10Fs pn.1).data = s.data ++ rest ∧ s.length ≤ 4000) :=
  ⟨llm_prompt_truncation.1 "hello" (auditPromptHeader ++ pySlice "hello" 4000)
    (by rw [show run_dataforseo_audit_llmPrompts "hello"
          = [auditPromptHeader ++ pySlice "hello" 4000] from rfl]
        exact List.mem_singleton.mpr rfl),
   by
    have hmem : summarizePrompt (pySlice "hi" 4000) "a.txt"
        ∈ process_folder_llmPrompts c10Fs [("a.txt", "a.txt")] := by
      rw [show process_folder_llmPrompts c10Fs [("a.txt", "a.txt")]
            = [summarizePrompt (pySlice "hi" 4000) "a.txt"] from rfl]
      exact List.mem_singleton.mpr rfl
    have h := llm_prompt_truncation.2 c10Fs [("a.txt", "a.txt")]
      (summarizePrompt (pySlice "hi" 4000) "a.txt") hmem
    obtain ⟨pn, s, rest, h1, h2, h3, h4⟩ := h
    exact ⟨pn, s, rest, h1, h2, h3, h4⟩⟩
